import Mathlib

/-!
# Event dispatch loop of the Slack Socket Mode bot (`src/main.go`)

A shallow embedding of the goroutine started in `main` (lines 54-119): the
`for evt := range client.Events` loop, its switch on `evt.Type`, the type
assertion on `evt.Data`, the `client.Ack` call, the switch on
`eventsAPIEvent.Type`, the type switch on `innerEvent.Data` and the
`client.PostMessage` calls.

The side effects of the loop (structured log lines, `Debugf` lines, `Ack` and
`PostMessage` calls) are recorded, in program order, as a list of `Action`s.
The result of each `PostMessage` call is supplied by an outcome function from
the index of the call to its error (`none` when the call succeeds).  A nil
pointer dereference is a Go panic; it is recorded in the `panicked` flag and
ends the loop.

The types of the `slack-go` packages are not part of the repository; the
structures below carry the fields the loop reads (the Go field `Type` is
written `Type_`), and the `SubType` of a message event, which the loop does not
read.  Every Go pointer the loop dereferences is an `Option`: `evt.Request`,
the pointer held by `innerEvent.Data`, and `ev.Message`.
-/

namespace SlackBot

/-! ## Data model -/

/-- The `socketmode.EventType` of a transport event: the five constants the loop
has a case for, and every other value (handled by `default`). -/
inductive EventType
  | EventTypeConnecting
  | EventTypeConnectionError
  | EventTypeConnected
  | EventTypeEventsAPI
  | EventTypeHello
  | other (name : String)
  deriving DecidableEq, Repr

/-- The `socketmode.Request` behind `evt.Request`, identified by its envelope. -/
structure Request where
  EnvelopeID : String
  deriving DecidableEq, Repr

/-- The `slackevents.AppMentionEvent` fields read by the loop. -/
structure AppMentionEvent where
  BotID : String
  Channel : String
  TimeStamp : String
  deriving DecidableEq, Repr

/-- The `slack.Msg` behind `ev.Message`; the loop reads its `Text`. -/
structure Msg where
  Text : String
  deriving DecidableEq, Repr

/-- The `slackevents.MessageEvent` fields read by the loop, and its `SubType`
(the marker of an edit, delete or join notice), which the loop does not read:
line 97 compares `Type`.  `Message` is a pointer in Go (`ev.Message.Text`
dereferences it), hence an `Option`. -/
structure MessageEvent where
  BotID : String
  Type_ : String
  SubType : String
  Channel : String
  TimeStamp : String
  Message : Option Msg
  deriving DecidableEq, Repr

/-- The `slackevents.MemberJoinedChannelEvent` fields read by the loop. -/
structure MemberJoinedChannelEvent where
  User : String
  Channel : String
  deriving DecidableEq, Repr

/-- The dynamic value of `innerEvent.Data`: a pointer of one of the three types
the type switch has a case for, and any other value, for which the type switch
has no case.  A case of the type switch matches on the type of the pointer, so
it also matches a nil pointer of that type (`none`). -/
inductive InnerEventData
  | AppMentionEvent (ev : Option AppMentionEvent)
  | MessageEvent (ev : Option MessageEvent)
  | MemberJoinedChannelEvent (ev : Option MemberJoinedChannelEvent)
  | other (typeName : String)
  deriving DecidableEq, Repr

/-- The `slackevents.EventsAPIInnerEvent`. -/
structure EventsAPIInnerEvent where
  Type_ : String
  Data : InnerEventData
  deriving DecidableEq, Repr

/-- The outer type of an Events API envelope: `slackevents.CallbackEvent`, or any
other string (handled by `default`). -/
inductive EventsAPIType
  | CallbackEvent
  | other (name : String)
  deriving DecidableEq, Repr

/-- The `slackevents.EventsAPIEvent`. -/
structure EventsAPIEvent where
  Type_ : EventsAPIType
  InnerEvent : EventsAPIInnerEvent
  deriving DecidableEq, Repr

/-- The dynamic value of `evt.Data` (an `interface{}`): either a
`slackevents.EventsAPIEvent`, for which the type assertion of line 64 succeeds,
or a value of any other type (or nil), for which it fails. -/
inductive EventData
  | EventsAPIEvent (e : EventsAPIEvent)
  | other (typeName : String)
  deriving DecidableEq, Repr

/-- The `socketmode.Event` received from `client.Events`.  `Request` is a pointer
in Go (`*evt.Request` dereferences it), hence an `Option`. -/
structure Event where
  Type_ : EventType
  Data : EventData
  Request : Option Request
  deriving DecidableEq, Repr

/-! ## Observable actions -/

/-- The level of a structured log line. -/
inductive Level
  | Info
  | Error
  deriving DecidableEq, Repr

/-- The value of a key/value attribute of a structured log line. -/
inductive LogValue
  | str (s : String)
  | event (evt : Event)
  | eventsAPIEvent (e : EventsAPIEvent)
  | eventType (t : EventType)
  | error (err : String)
  deriving DecidableEq, Repr

/-- One side effect of the loop. -/
inductive Action
  | slog (level : Level) (msg : String) (attrs : List (String × LogValue))
  | debugf (msg : String)
  | ack (req : Request)
  | postMessage (channel : String) (threadTS : String) (text : String)
  deriving DecidableEq, Repr

/-- The effect of handling events: the actions performed in order, the number of
`PostMessage` calls among them, and whether the goroutine panicked. -/
structure Step where
  actions : List Action
  posts : Nat
  panicked : Bool
  deriving DecidableEq, Repr

/-- The result of the `k`-th `PostMessage` call of the run: `none` when `err` is
nil, `some err` otherwise. -/
abbrev PostOutcome := Nat → Option String

/-- Every `PostMessage` call succeeds. -/
def allSucceed : PostOutcome := fun _ => none

/-! ## The loop -/

/-- Lines 84-91 and 98-105: `client.PostMessage(channel, MsgOptionTS(ts),
MsgOptionText(text, false))` followed by `if err != nil` and its `slog.Error`.
`n` is the number of `PostMessage` calls made before this one. -/
def postMessage (outcome : PostOutcome) (n : Nat) (channel ts text : String) : List Action :=
  Action.postMessage channel ts text ::
    match outcome n with
    | none => []
    | some err => [Action.slog Level.Error "failed posting message" [("error", LogValue.error err)]]

/-- Lines 77-109: the type switch on `innerEvent.Data` of a callback envelope.
Reading a field of `ev` (lines 80, 93 and 108) dereferences the pointer. -/
def handleInnerEvent (outcome : PostOutcome) (n : Nat) (innerEvent : EventsAPIInnerEvent) : Step :=
  match innerEvent.Data with
  | InnerEventData.AppMentionEvent none => ⟨[], 0, true⟩
  | InnerEventData.AppMentionEvent (some ev) =>
    if ev.BotID ≠ "" then
      ⟨[], 0, false⟩
    else
      ⟨postMessage outcome n ev.Channel ev.TimeStamp "Yes, hello.", 1, false⟩
  | InnerEventData.MessageEvent none => ⟨[], 0, true⟩
  | InnerEventData.MessageEvent (some ev) =>
    if ev.BotID ≠ "" then
      ⟨[], 0, false⟩
    else if ev.Type_ = "message" then
      match ev.Message with
      | none => ⟨[], 0, true⟩
      | some m => ⟨postMessage outcome n ev.Channel ev.TimeStamp ("message: " ++ m.Text), 1, false⟩
    else
      ⟨[], 0, false⟩
  | InnerEventData.MemberJoinedChannelEvent none => ⟨[], 0, true⟩
  | InnerEventData.MemberJoinedChannelEvent (some ev) =>
    ⟨[Action.slog Level.Info "user joined to channel"
        [("user", LogValue.str ev.User), ("channel", LogValue.str ev.Channel)]], 0, false⟩
  | InnerEventData.other _ => ⟨[], 0, false⟩

/-- Lines 63-112: the `EventTypeEventsAPI` case. -/
def handleEventsAPI (outcome : PostOutcome) (n : Nat) (evt : Event) : Step :=
  match evt.Data with
  | EventData.other _ =>
    ⟨[Action.slog Level.Info "Ignored" [("event", LogValue.event evt)]], 0, false⟩
  | EventData.EventsAPIEvent eventsAPIEvent =>
    let received := Action.slog Level.Info "Event received"
      [("event", LogValue.eventsAPIEvent eventsAPIEvent)]
    match evt.Request with
    | none => ⟨[received], 0, true⟩
    | some req =>
      match eventsAPIEvent.Type_ with
      | EventsAPIType.CallbackEvent =>
        let s := handleInnerEvent outcome n eventsAPIEvent.InnerEvent
        ⟨received :: Action.ack req :: s.actions, s.posts, s.panicked⟩
      | EventsAPIType.other _ =>
        ⟨[received, Action.ack req, Action.debugf "unsupported Events API event received"],
          0, false⟩

/-- Lines 56-117: the body of the loop for one event `evt`, when `n`
`PostMessage` calls were made before it. -/
def handle (outcome : PostOutcome) (n : Nat) (evt : Event) : Step :=
  match evt.Type_ with
  | EventType.EventTypeConnecting =>
    ⟨[Action.slog Level.Info "Connecting to Slack with Socket Mode..." []], 0, false⟩
  | EventType.EventTypeConnectionError =>
    ⟨[Action.slog Level.Info "Connection failed. Retrying later..." []], 0, false⟩
  | EventType.EventTypeConnected =>
    ⟨[Action.slog Level.Info "Connected to Slack with Socket Mode." []], 0, false⟩
  | EventType.EventTypeEventsAPI => handleEventsAPI outcome n evt
  | EventType.EventTypeHello => ⟨[Action.debugf "Hello received!"], 0, false⟩
  | EventType.other name =>
    ⟨[Action.slog Level.Error "Unexpected event type received"
        [("type", LogValue.eventType (EventType.other name))]], 0, false⟩

/-- Lines 55-118: the loop over the events received from `client.Events`, when
`n` `PostMessage` calls were made before.  A panic ends the loop: the events
after it are not handled. -/
def run (outcome : PostOutcome) : Nat → List Event → Step
  | _, [] => ⟨[], 0, false⟩
  | n, evt :: rest =>
    let s := handle outcome n evt
    if s.panicked then s
    else
      let r := run outcome (n + s.posts) rest
      ⟨s.actions ++ r.actions, s.posts + r.posts, r.panicked⟩

/-! ## Observations on a list of actions -/

/-- The request handles of the `Ack` calls, in order. -/
def acks : List Action → List Request
  | [] => []
  | Action.ack req :: rest => req :: acks rest
  | _ :: rest => acks rest

/-- The `(channel, thread timestamp, text)` of the `PostMessage` calls, in order. -/
def postCalls : List Action → List (String × String × String)
  | [] => []
  | Action.postMessage c t x :: rest => (c, t, x) :: postCalls rest
  | _ :: rest => postCalls rest

/-- The log entries (structured log lines and `Debugf` lines), in order. -/
def logEntries : List Action → List Action
  | [] => []
  | Action.slog l m a :: rest => Action.slog l m a :: logEntries rest
  | Action.debugf m :: rest => Action.debugf m :: logEntries rest
  | _ :: rest => logEntries rest

/-- The log line of a failed `PostMessage` call. -/
def isPostFailureLog : Action → Bool
  | Action.slog Level.Error "failed posting message" _ => true
  | _ => false

/-- The actions of `l` other than the log lines of failed `PostMessage` calls. -/
def withoutPostFailureLogs (l : List Action) : List Action :=
  l.filter (fun a => !isPostFailureLog a)

/-- The actions of `l` with, directly after each `PostMessage` call that fails,
one "failed posting message" log line carrying its error, and nothing else
added; `n` is the index of the first `PostMessage` call of `l`. -/
def withPostFailureLogs (outcome : PostOutcome) : Nat → List Action → List Action
  | _, [] => []
  | n, Action.postMessage c t x :: rest =>
    match outcome n with
    | none => Action.postMessage c t x :: withPostFailureLogs outcome (n + 1) rest
    | some err =>
      Action.postMessage c t x ::
        Action.slog Level.Error "failed posting message" [("error", LogValue.error err)] ::
        withPostFailureLogs outcome (n + 1) rest
  | n, Action.slog l m a :: rest => Action.slog l m a :: withPostFailureLogs outcome n rest
  | n, Action.debugf m :: rest => Action.debugf m :: withPostFailureLogs outcome n rest
  | n, Action.ack req :: rest => Action.ack req :: withPostFailureLogs outcome n rest

/-- A decoded Events API transport event carrying the request handle `req`. -/
def eventsAPI (req : Request) (e : EventsAPIEvent) : Event :=
  ⟨EventType.EventTypeEventsAPI, EventData.EventsAPIEvent e, some req⟩

/-- A decoded callback envelope with inner event data `d`, carrying the request
handle `req`. -/
def callback (req : Request) (innerType : String) (d : InnerEventData) : Event :=
  eventsAPI req ⟨EventsAPIType.CallbackEvent, ⟨innerType, d⟩⟩

/-- The transport event `evt` does not make the loop dereference a nil pointer:
a decoded Events API event carries its request handle, the inner event of a
callback envelope is not a nil pointer of one of the three types the type
switch has a case for, and a callback message event of type "message" without
bot ID carries its nested message. -/
def pointersPresent (evt : Event) : Bool :=
  match evt.Type_, evt.Data with
  | EventType.EventTypeEventsAPI, EventData.EventsAPIEvent e =>
    evt.Request.isSome &&
      (match e.Type_, e.InnerEvent.Data with
       | EventsAPIType.CallbackEvent, InnerEventData.AppMentionEvent ev => ev.isSome
       | EventsAPIType.CallbackEvent, InnerEventData.MessageEvent none => false
       | EventsAPIType.CallbackEvent, InnerEventData.MessageEvent (some ev) =>
         !(ev.BotID = "" && ev.Type_ = "message") || ev.Message.isSome
       | EventsAPIType.CallbackEvent, InnerEventData.MemberJoinedChannelEvent ev => ev.isSome
       | _, _ => true)
  | _, _ => true

/-- Scenario 1, an Events API event whose payload is not an envelope, and
scenario 3, in sequence. -/
def scenarioEvents : List Event :=
  [callback ⟨"E1"⟩ "app_mention" (InnerEventData.AppMentionEvent (some ⟨"", "C1", "100.1"⟩)),
   ⟨EventType.EventTypeEventsAPI, EventData.other "", none⟩,
   callback ⟨"E2"⟩ "message" (InnerEventData.MessageEvent
     (some ⟨"", "message", "message", "C2", "200.5", some ⟨"hi there"⟩⟩))]

/-- Every `PostMessage` call fails with the error "channel_not_found". -/
def allFail : PostOutcome := fun _ => some "channel_not_found"

/-! ## Helper lemmas -/

theorem postCalls_append (l₁ l₂ : List Action) :
    postCalls (l₁ ++ l₂) = postCalls l₁ ++ postCalls l₂ := by
  induction l₁ with
  | nil => rfl
  | cons a l ih => cases a <;> simp [postCalls, ih]

theorem acks_postMessage (outcome : PostOutcome) (n : Nat) (c t x : String) :
    acks (postMessage outcome n c t x) = [] := by
  unfold postMessage
  cases outcome n <;> simp [acks]

theorem postCalls_postMessage (outcome : PostOutcome) (n : Nat) (c t x : String) :
    postCalls (postMessage outcome n c t x) = [(c, t, x)] := by
  unfold postMessage
  cases outcome n <;> simp [postCalls]

theorem acks_handleInnerEvent (outcome : PostOutcome) (n : Nat) (inner : EventsAPIInnerEvent) :
    acks (handleInnerEvent outcome n inner).actions = [] := by
  obtain ⟨ty, d⟩ := inner
  cases d with
  | AppMentionEvent p =>
    cases p with
    | none => simp [handleInnerEvent, acks]
    | some ev =>
      by_cases h : ev.BotID = "" <;> simp [handleInnerEvent, h, acks, acks_postMessage]
  | MessageEvent p =>
    cases p with
    | none => simp [handleInnerEvent, acks]
    | some ev =>
      by_cases h : ev.BotID = "" <;> by_cases ht : ev.Type_ = "message" <;>
        cases hm : ev.Message <;> simp [handleInnerEvent, h, ht, hm, acks, acks_postMessage]
  | MemberJoinedChannelEvent p => cases p <;> simp [handleInnerEvent, acks]
  | other name => simp [handleInnerEvent, acks]

theorem handle_eventsAPI (outcome : PostOutcome) (n : Nat) (req : Request) (e : EventsAPIEvent) :
    handle outcome n (eventsAPI req e) =
      match e.Type_ with
      | EventsAPIType.CallbackEvent =>
        ⟨Action.slog Level.Info "Event received" [("event", LogValue.eventsAPIEvent e)] ::
          Action.ack req :: (handleInnerEvent outcome n e.InnerEvent).actions,
          (handleInnerEvent outcome n e.InnerEvent).posts,
          (handleInnerEvent outcome n e.InnerEvent).panicked⟩
      | EventsAPIType.other _ =>
        ⟨[Action.slog Level.Info "Event received" [("event", LogValue.eventsAPIEvent e)],
          Action.ack req, Action.debugf "unsupported Events API event received"], 0, false⟩ := by
  simp [handle, handleEventsAPI, eventsAPI]

theorem handle_callback (outcome : PostOutcome) (n : Nat) (req : Request) (ty : String)
    (d : InnerEventData) :
    handle outcome n (callback req ty d) =
      ⟨Action.slog Level.Info "Event received"
          [("event", LogValue.eventsAPIEvent ⟨EventsAPIType.CallbackEvent, ⟨ty, d⟩⟩)] ::
          Action.ack req :: (handleInnerEvent outcome n ⟨ty, d⟩).actions,
        (handleInnerEvent outcome n ⟨ty, d⟩).posts,
        (handleInnerEvent outcome n ⟨ty, d⟩).panicked⟩ := by
  simp [callback, handle_eventsAPI]

theorem run_nil (outcome : PostOutcome) (n : Nat) : run outcome n [] = ⟨[], 0, false⟩ := rfl

theorem run_cons (outcome : PostOutcome) (n : Nat) (evt : Event) (rest : List Event) :
    run outcome n (evt :: rest) =
      if (handle outcome n evt).panicked then handle outcome n evt
      else
        ⟨(handle outcome n evt).actions
            ++ (run outcome (n + (handle outcome n evt).posts) rest).actions,
          (handle outcome n evt).posts + (run outcome (n + (handle outcome n evt).posts) rest).posts,
          (run outcome (n + (handle outcome n evt).posts) rest).panicked⟩ := rfl

theorem run_append (outcome : PostOutcome) (pre l : List Event) (n : Nat) :
    run outcome n (pre ++ l) =
      if (run outcome n pre).panicked then run outcome n pre
      else
        ⟨(run outcome n pre).actions ++ (run outcome (n + (run outcome n pre).posts) l).actions,
          (run outcome n pre).posts + (run outcome (n + (run outcome n pre).posts) l).posts,
          (run outcome (n + (run outcome n pre).posts) l).panicked⟩ := by
  induction pre generalizing n with
  | nil => simp [run_nil]
  | cons p pre ih =>
    rw [List.cons_append, run_cons, run_cons]
    by_cases hp : (handle outcome n p).panicked = true
    · simp [hp]
    · simp only [hp, if_false, Bool.false_eq_true]
      rw [ih]
      by_cases hq : (run outcome (n + (handle outcome n p).posts) pre).panicked = true
      · simp [hq]
      · simp [hq, Nat.add_assoc]

theorem isPostFailureLog_info (m : String) (attrs : List (String × LogValue)) :
    isPostFailureLog (Action.slog Level.Info m attrs) = false := by
  simp [isPostFailureLog]

theorem isPostFailureLog_failed (attrs : List (String × LogValue)) :
    isPostFailureLog (Action.slog Level.Error "failed posting message" attrs) = true := by
  simp [isPostFailureLog]

theorem isPostFailureLog_unexpected (attrs : List (String × LogValue)) :
    isPostFailureLog (Action.slog Level.Error "Unexpected event type received" attrs)
      = false := by
  simp [isPostFailureLog]

theorem isPostFailureLog_debugf (m : String) : isPostFailureLog (Action.debugf m) = false := rfl

theorem isPostFailureLog_ack (req : Request) : isPostFailureLog (Action.ack req) = false := rfl

theorem isPostFailureLog_postMessage (c t x : String) :
    isPostFailureLog (Action.postMessage c t x) = false := rfl

theorem withoutPostFailureLogs_nil : withoutPostFailureLogs [] = [] := rfl

theorem withoutPostFailureLogs_cons (a : Action) (l : List Action) :
    withoutPostFailureLogs (a :: l) =
      if isPostFailureLog a then withoutPostFailureLogs l
      else a :: withoutPostFailureLogs l := by
  unfold withoutPostFailureLogs
  cases h : isPostFailureLog a <;> simp [List.filter_cons, h]

theorem acks_withoutPostFailureLogs (l : List Action) :
    acks (withoutPostFailureLogs l) = acks l := by
  induction l with
  | nil => rfl
  | cons a l ih =>
    rw [withoutPostFailureLogs_cons]
    cases h : isPostFailureLog a
    · cases a <;> simp [acks, ih]
    · cases a <;> simp_all [acks, isPostFailureLog_ack, isPostFailureLog_debugf,
        isPostFailureLog_postMessage]

theorem postCalls_withoutPostFailureLogs (l : List Action) :
    postCalls (withoutPostFailureLogs l) = postCalls l := by
  induction l with
  | nil => rfl
  | cons a l ih =>
    rw [withoutPostFailureLogs_cons]
    cases h : isPostFailureLog a
    · cases a <;> simp [postCalls, ih]
    · cases a <;> simp_all [postCalls, isPostFailureLog_ack, isPostFailureLog_debugf,
        isPostFailureLog_postMessage]

/-- Removing the failure log lines undoes `withPostFailureLogs` on a list that
has none. -/
theorem withoutPostFailureLogs_withPostFailureLogs (outcome : PostOutcome) (l : List Action)
    (n : Nat) (h : withoutPostFailureLogs l = l) :
    withoutPostFailureLogs (withPostFailureLogs outcome n l) = l := by
  induction l generalizing n with
  | nil => rfl
  | cons a l ih =>
    rw [withoutPostFailureLogs_cons] at h
    cases hf : isPostFailureLog a
    · simp only [hf, Bool.false_eq_true, if_false, List.cons.injEq, true_and] at h
      cases a with
      | postMessage c t x =>
        cases ho : outcome n <;>
          simp [withPostFailureLogs, ho, withoutPostFailureLogs_cons,
            isPostFailureLog_postMessage, isPostFailureLog_failed, ih _ h]
      | slog lv m at_ => simp [withPostFailureLogs, withoutPostFailureLogs_cons, hf, ih _ h]
      | debugf m => simp [withPostFailureLogs, withoutPostFailureLogs_cons, hf, ih _ h]
      | ack req => simp [withPostFailureLogs, withoutPostFailureLogs_cons, hf, ih _ h]
    · simp only [hf, if_true] at h
      have hlen : (withoutPostFailureLogs l).length ≤ l.length := by
        unfold withoutPostFailureLogs
        exact List.length_filter_le _ l
      rw [h] at hlen
      simp at hlen

theorem withPostFailureLogs_append (outcome : PostOutcome) (l₁ l₂ : List Action) (n : Nat) :
    withPostFailureLogs outcome n (l₁ ++ l₂) =
      withPostFailureLogs outcome n l₁
        ++ withPostFailureLogs outcome (n + (postCalls l₁).length) l₂ := by
  induction l₁ generalizing n with
  | nil => simp [withPostFailureLogs, postCalls]
  | cons a l ih =>
    cases a with
    | postMessage c t x =>
      have hn : n + 1 + (postCalls l).length = n + ((postCalls l).length + 1) := by omega
      cases ho : outcome n <;> simp [withPostFailureLogs, ho, postCalls, ih, hn]
    | slog lv m at_ => simp [withPostFailureLogs, postCalls, ih]
    | debugf m => simp [withPostFailureLogs, postCalls, ih]
    | ack req => simp [withPostFailureLogs, postCalls, ih]

theorem postMessage_eq_withPostFailureLogs (outcome : PostOutcome) (n : Nat) (c t x : String) :
    postMessage outcome n c t x
      = withPostFailureLogs outcome n (postMessage allSucceed n c t x) := by
  unfold postMessage
  cases ho : outcome n <;> simp [withPostFailureLogs, ho, allSucceed]

/-- The loop body on an inner event, for any outcome, against the same body with
every call succeeding. -/
theorem handleInnerEvent_outcome (outcome : PostOutcome) (n : Nat) (inner : EventsAPIInnerEvent) :
    (handleInnerEvent outcome n inner).panicked = (handleInnerEvent allSucceed n inner).panicked ∧
    (handleInnerEvent outcome n inner).posts = (handleInnerEvent allSucceed n inner).posts ∧
    (handleInnerEvent allSucceed n inner).posts
      = (postCalls (handleInnerEvent allSucceed n inner).actions).length ∧
    withoutPostFailureLogs (handleInnerEvent allSucceed n inner).actions
      = (handleInnerEvent allSucceed n inner).actions ∧
    (handleInnerEvent outcome n inner).actions
      = withPostFailureLogs outcome n (handleInnerEvent allSucceed n inner).actions := by
  have hpost : ∀ c t x, withoutPostFailureLogs (postMessage allSucceed n c t x)
      = postMessage allSucceed n c t x := by
    intro c t x
    simp [postMessage, allSucceed, withoutPostFailureLogs_cons, withoutPostFailureLogs_nil,
      isPostFailureLog_postMessage]
  obtain ⟨ty, d⟩ := inner
  cases d with
  | AppMentionEvent p =>
    cases p with
    | none => simp [handleInnerEvent, postCalls, withoutPostFailureLogs_nil, withPostFailureLogs]
    | some ev =>
      by_cases h : ev.BotID = ""
      · simp only [handleInnerEvent, h, ne_eq, not_true_eq_false, if_false,
          postCalls_postMessage, hpost]
        exact ⟨trivial, trivial, rfl, trivial, postMessage_eq_withPostFailureLogs _ _ _ _ _⟩
      · simp [handleInnerEvent, h, postCalls, withoutPostFailureLogs_nil, withPostFailureLogs]
  | MessageEvent p =>
    cases p with
    | none => simp [handleInnerEvent, postCalls, withoutPostFailureLogs_nil, withPostFailureLogs]
    | some ev =>
      by_cases h : ev.BotID = ""
      · by_cases ht : ev.Type_ = "message"
        · cases hm : ev.Message with
          | none =>
            simp [handleInnerEvent, h, ht, hm, postCalls, withoutPostFailureLogs_nil,
              withPostFailureLogs]
          | some m =>
            simp only [handleInnerEvent, h, ht, hm, ne_eq, not_true_eq_false, if_false,
              if_true, postCalls_postMessage, hpost]
            exact ⟨trivial, trivial, rfl, trivial, postMessage_eq_withPostFailureLogs _ _ _ _ _⟩
        · simp [handleInnerEvent, h, ht, postCalls, withoutPostFailureLogs_nil,
            withPostFailureLogs]
      · simp [handleInnerEvent, h, postCalls, withoutPostFailureLogs_nil, withPostFailureLogs]
  | MemberJoinedChannelEvent p =>
    cases p <;>
      simp [handleInnerEvent, postCalls, withoutPostFailureLogs_nil, withoutPostFailureLogs_cons,
        isPostFailureLog_info, withPostFailureLogs]
  | other name =>
    simp [handleInnerEvent, postCalls, withoutPostFailureLogs_nil, withPostFailureLogs]

/-- The loop body on one event, for any outcome, against the same body with
every call succeeding. -/
theorem handle_outcome (outcome : PostOutcome) (n : Nat) (evt : Event) :
    (handle outcome n evt).panicked = (handle allSucceed n evt).panicked ∧
    (handle outcome n evt).posts = (handle allSucceed n evt).posts ∧
    (handle allSucceed n evt).posts = (postCalls (handle allSucceed n evt).actions).length ∧
    withoutPostFailureLogs (handle allSucceed n evt).actions
      = (handle allSucceed n evt).actions ∧
    (handle outcome n evt).actions
      = withPostFailureLogs outcome n (handle allSucceed n evt).actions := by
  obtain ⟨ty, d, r⟩ := evt
  cases ty <;> try simp [handle, withoutPostFailureLogs_cons, withoutPostFailureLogs_nil,
    isPostFailureLog_info, isPostFailureLog_debugf, isPostFailureLog_unexpected, postCalls,
    withPostFailureLogs]
  cases d with
  | other name =>
    simp [handleEventsAPI, withoutPostFailureLogs_cons, withoutPostFailureLogs_nil,
      isPostFailureLog_info, postCalls, withPostFailureLogs]
  | EventsAPIEvent e =>
    cases r with
    | none =>
      simp [handleEventsAPI, withoutPostFailureLogs_cons, withoutPostFailureLogs_nil,
        isPostFailureLog_info, postCalls, withPostFailureLogs]
    | some req =>
      obtain ⟨oty, inner⟩ := e
      cases oty with
      | CallbackEvent =>
        have hi := handleInnerEvent_outcome outcome n inner
        simp only [handleEventsAPI]
        refine ⟨hi.1, hi.2.1, ?_, ?_, ?_⟩
        · simpa [postCalls] using hi.2.2.1
        · simp [withoutPostFailureLogs_cons, isPostFailureLog_info, isPostFailureLog_ack,
            hi.2.2.2.1]
        · simp [withPostFailureLogs, hi.2.2.2.2]
      | other name =>
        simp [handleEventsAPI, withoutPostFailureLogs_cons, withoutPostFailureLogs_nil,
          isPostFailureLog_info, isPostFailureLog_ack, isPostFailureLog_debugf, postCalls,
          withPostFailureLogs]

theorem handle_pointersPresent (n : Nat) (evt : Event) (h : pointersPresent evt = true) :
    (handle allSucceed n evt).panicked = false := by
  obtain ⟨ty, d, r⟩ := evt
  cases ty <;> try simp [handle]
  cases d with
  | other name => simp [handleEventsAPI]
  | EventsAPIEvent e =>
    cases r with
    | none => simp [pointersPresent] at h
    | some req =>
      obtain ⟨oty, ity, idata⟩ := e
      cases oty with
      | other name => simp [handleEventsAPI]
      | CallbackEvent =>
        cases idata with
        | AppMentionEvent p =>
          cases p with
          | none => simp [pointersPresent] at h
          | some ev =>
            by_cases hb : ev.BotID = "" <;> simp [handleEventsAPI, handleInnerEvent, hb]
        | MessageEvent p =>
          cases p with
          | none => simp [pointersPresent] at h
          | some ev =>
            by_cases hb : ev.BotID = "" <;> by_cases ht : ev.Type_ = "message" <;>
              cases hm : ev.Message <;>
              simp [handleEventsAPI, handleInnerEvent, hb, ht, hm, pointersPresent] at h ⊢
        | MemberJoinedChannelEvent p =>
          cases p with
          | none => simp [pointersPresent] at h
          | some ev => simp [handleEventsAPI, handleInnerEvent]
        | other name => simp [handleEventsAPI, handleInnerEvent]

/-- The loop on a sequence of events none of which makes it dereference a nil
pointer, for any outcome, against the same loop with every call succeeding. -/
theorem run_outcome (outcome : PostOutcome) (evts : List Event) (n : Nat)
    (h : ∀ evt ∈ evts, pointersPresent evt = true) :
    (run outcome n evts).panicked = false ∧
    (run outcome n evts).posts = (run allSucceed n evts).posts ∧
    (run allSucceed n evts).posts = (postCalls (run allSucceed n evts).actions).length ∧
    withoutPostFailureLogs (run allSucceed n evts).actions = (run allSucceed n evts).actions ∧
    (run outcome n evts).actions
      = withPostFailureLogs outcome n (run allSucceed n evts).actions := by
  induction evts generalizing n with
  | nil => simp [run_nil, withoutPostFailureLogs_nil, postCalls, withPostFailureLogs]
  | cons evt rest ih =>
    have hp := handle_pointersPresent n evt (h evt (List.mem_cons_self evt rest))
    have ho := handle_outcome outcome n evt
    have hr := ih (n + (handle outcome n evt).posts)
      (fun e he => h e (List.mem_cons_of_mem evt he))
    have hp2 : (handle outcome n evt).panicked = false := by rw [ho.1, hp]
    rw [run_cons, run_cons]
    simp only [hp, hp2, Bool.false_eq_true, if_false]
    rw [ho.2.1] at hr
    simp only [ho.2.1]
    refine ⟨hr.1, ?_, ?_, ?_, ?_⟩
    · rw [hr.2.1]
    · rw [postCalls_append, List.length_append, ← ho.2.2.1, ← hr.2.2.1]
    · have h1 := ho.2.2.2.1
      have h2 := hr.2.2.2.1
      unfold withoutPostFailureLogs at h1 h2 ⊢
      rw [List.filter_append, h1, h2]
    · rw [withPostFailureLogs_append, ← ho.2.2.1, ← ho.2.2.2.2, ← hr.2.2.2.2]

/-! ## Acknowledgment -/

/-- C1: handling a decoded Events API event whose envelope has outer type Callback
performs exactly one Ack call, on the request handle of the event, for every
inner event and every outcome of the PostMessage call. -/
theorem callback_acked_exactly_once (outcome : PostOutcome) (n : Nat) (req : Request)
    (inner : EventsAPIInnerEvent) :
    acks (handle outcome n (eventsAPI req ⟨EventsAPIType.CallbackEvent, inner⟩)).actions
      = [req] := by
  simp [handle_eventsAPI, acks, acks_handleInnerEvent]

/-- C2, as stated, fails: an envelope whose outer type is not Callback is
acknowledged all the same. -/
theorem ack_iff_callback_fails :
    ¬ (acks (handle allSucceed 0
          (eventsAPI ⟨"E1"⟩ ⟨EventsAPIType.other "url_verification",
            ⟨"", InnerEventData.other ""⟩⟩)).actions ≠ []
        ↔ EventsAPIType.other "url_verification" = EventsAPIType.CallbackEvent) := by
  simp [handle_eventsAPI, acks]

/-- C2, amended: handling a decoded Events API event performs exactly one Ack
call, on the request handle of the event, whatever the outer type of the
envelope; the call precedes the switch on the outer type. -/
theorem decoded_envelope_acked_exactly_once (outcome : PostOutcome) (n : Nat) (req : Request)
    (e : EventsAPIEvent) :
    acks (handle outcome n (eventsAPI req e)).actions = [req] := by
  rw [handle_eventsAPI]
  split <;> simp [acks, acks_handleInnerEvent]

/-! ## Routing of the inner event -/

/-- C3: for a callback envelope whose inner event is an app mention with a
non-empty bot ID, whatever its channel and timestamp, no PostMessage call is
made. -/
theorem app_mention_from_bot_no_post (outcome : PostOutcome) (n : Nat) (req : Request)
    (ty : String) (ev : AppMentionEvent) (h : ev.BotID ≠ "") :
    postCalls (handle outcome n
      (callback req ty (InnerEventData.AppMentionEvent (some ev)))).actions = [] := by
  simp [handle_callback, handleInnerEvent, h, postCalls]

/-- Scenario 2 (C3): bot ID "B123" on channel "C1" at timestamp "100.1". -/
theorem app_mention_from_bot_no_post_witness :
    (⟨"B123", "C1", "100.1"⟩ : AppMentionEvent).BotID ≠ "" ∧
    postCalls (handle allSucceed 0 (callback ⟨"E1"⟩ "app_mention"
      (InnerEventData.AppMentionEvent (some ⟨"B123", "C1", "100.1"⟩)))).actions = [] :=
  ⟨by decide, app_mention_from_bot_no_post allSucceed 0 ⟨"E1"⟩ "app_mention"
    ⟨"B123", "C1", "100.1"⟩ (by decide)⟩

/-- C4: for a callback envelope whose inner event is an app mention with empty
bot ID, exactly one Ack call and exactly one PostMessage call are made; the
PostMessage call targets the channel of the mention, is threaded under its
timestamp and has the text "Yes, hello.". -/
theorem app_mention_reply (outcome : PostOutcome) (n : Nat) (req : Request)
    (ty : String) (ev : AppMentionEvent) (h : ev.BotID = "") :
    acks (handle outcome n
      (callback req ty (InnerEventData.AppMentionEvent (some ev)))).actions = [req] ∧
    postCalls (handle outcome n
      (callback req ty (InnerEventData.AppMentionEvent (some ev)))).actions
      = [(ev.Channel, ev.TimeStamp, "Yes, hello.")] := by
  simp [handle_callback, handleInnerEvent, h, postCalls, acks, acks_postMessage,
    postCalls_postMessage]

/-- Scenario 1 (C4): channel "C1", timestamp "100.1", empty bot ID. -/
theorem app_mention_reply_witness :
    (⟨"", "C1", "100.1"⟩ : AppMentionEvent).BotID = "" ∧
    acks (handle allSucceed 0 (callback ⟨"E1"⟩ "app_mention"
      (InnerEventData.AppMentionEvent (some ⟨"", "C1", "100.1"⟩)))).actions = [⟨"E1"⟩] ∧
    postCalls (handle allSucceed 0 (callback ⟨"E1"⟩ "app_mention"
      (InnerEventData.AppMentionEvent (some ⟨"", "C1", "100.1"⟩)))).actions
      = [("C1", "100.1", "Yes, hello.")] :=
  ⟨rfl, app_mention_reply allSucceed 0 ⟨"E1"⟩ "app_mention" ⟨"", "C1", "100.1"⟩ rfl⟩

/-- C5, as stated, fails: an edit notice (subtype "message_changed", type
"message", empty bot ID, nested message "hi there") has a subtype other than
"message" and is answered with a PostMessage call. -/
theorem message_other_subtype_no_post_fails :
    ¬ ((⟨"", "message", "message_changed", "C2", "200.5", some ⟨"hi there"⟩⟩
          : MessageEvent).SubType ≠ "message" →
        postCalls (handle allSucceed 0 (callback ⟨"E1"⟩ "message"
          (InnerEventData.MessageEvent (some
            ⟨"", "message", "message_changed", "C2", "200.5", some ⟨"hi there"⟩⟩)))).actions
          = []) := by
  decide

/-- C5, amended: for a callback envelope whose inner event is a message whose
type field (the Go field `Type`, which line 97 compares with "message") is
anything other than "message", whatever its subtype, bot ID, channel, timestamp
and nested message, no PostMessage call is made. -/
theorem message_other_type_no_post (outcome : PostOutcome) (n : Nat) (req : Request)
    (ty : String) (ev : MessageEvent) (h : ev.Type_ ≠ "message") :
    postCalls (handle outcome n
      (callback req ty (InnerEventData.MessageEvent (some ev)))).actions = [] := by
  by_cases hb : ev.BotID = "" <;> simp [handle_callback, handleInnerEvent, h, hb, postCalls]

/-- A message event whose type field is empty, with subtype "message_changed"
(C5). -/
theorem message_other_type_no_post_witness :
    (⟨"", "", "message_changed", "C2", "200.5", some ⟨"hi there"⟩⟩ : MessageEvent).Type_
      ≠ "message" ∧
    postCalls (handle allSucceed 0 (callback ⟨"E1"⟩ "message"
      (InnerEventData.MessageEvent (some
        ⟨"", "", "message_changed", "C2", "200.5", some ⟨"hi there"⟩⟩)))).actions = [] :=
  ⟨by decide, message_other_type_no_post allSucceed 0 ⟨"E1"⟩ "message"
    ⟨"", "", "message_changed", "C2", "200.5", some ⟨"hi there"⟩⟩ (by decide)⟩

/-- C6, as stated, fails: a message with empty bot ID, type and subtype "message",
channel "C2" and timestamp "200.5" whose nested message is absent is not
answered: line 101 dereferences the nil `ev.Message` before the call. -/
theorem message_reply_without_nested_message_fails :
    ¬ ((postCalls (handle allSucceed 0 (callback ⟨"E1"⟩ "message"
          (InnerEventData.MessageEvent (some
            ⟨"", "message", "message", "C2", "200.5", none⟩)))).actions).length = 1) := by
  decide

/-- C6, amended: for a callback envelope whose inner event is a message with empty
bot ID, type field "message" (whatever its subtype) and a nested message
present with text `m.Text`, exactly one PostMessage call is made; it targets the
channel of the message, is threaded under its timestamp and has the text
"message: " followed by `m.Text`. -/
theorem message_reply (outcome : PostOutcome) (n : Nat) (req : Request)
    (ty : String) (ev : MessageEvent) (m : Msg)
    (hb : ev.BotID = "") (ht : ev.Type_ = "message") (hm : ev.Message = some m) :
    postCalls (handle outcome n
      (callback req ty (InnerEventData.MessageEvent (some ev)))).actions
      = [(ev.Channel, ev.TimeStamp, "message: " ++ m.Text)] := by
  simp [handle_callback, handleInnerEvent, hb, ht, hm, postCalls, postCalls_postMessage]

/-- Scenario 3 (C6): channel "C2", timestamp "200.5", nested message text
"hi there". -/
theorem message_reply_witness :
    (⟨"", "message", "message", "C2", "200.5", some ⟨"hi there"⟩⟩ : MessageEvent).BotID = "" ∧
    (⟨"", "message", "message", "C2", "200.5", some ⟨"hi there"⟩⟩ : MessageEvent).Type_
      = "message" ∧
    (⟨"", "message", "message", "C2", "200.5", some ⟨"hi there"⟩⟩ : MessageEvent).Message
      = some ⟨"hi there"⟩ ∧
    postCalls (handle allSucceed 0 (callback ⟨"E1"⟩ "message"
      (InnerEventData.MessageEvent (some
        ⟨"", "message", "message", "C2", "200.5", some ⟨"hi there"⟩⟩)))).actions
      = [("C2", "200.5", "message: hi there")] :=
  ⟨rfl, rfl, rfl, message_reply allSucceed 0 ⟨"E1"⟩ "message"
    ⟨"", "message", "message", "C2", "200.5", some ⟨"hi there"⟩⟩ ⟨"hi there"⟩ rfl rfl rfl⟩

/-- The loop does not read the subtype of a message event: the PostMessage calls
are the same for every subtype. -/
theorem message_subType_not_read (outcome : PostOutcome) (n : Nat) (req : Request)
    (ty : String) (ev : MessageEvent) (subType : String) :
    postCalls (handle outcome n (callback req ty
      (InnerEventData.MessageEvent (some
        ⟨ev.BotID, ev.Type_, subType, ev.Channel, ev.TimeStamp, ev.Message⟩)))).actions
      = postCalls (handle outcome n (callback req ty
          (InnerEventData.MessageEvent (some ev)))).actions := by
  simp [handle_callback, handleInnerEvent, postCalls]

/-- C9: for a callback envelope, every PostMessage call in the action sequence is
preceded by the Ack call for the envelope. -/
theorem ack_before_post (outcome : PostOutcome) (n : Nat) (req : Request)
    (ty : String) (d : InnerEventData) (i : Nat) (c t x : String)
    (h : (handle outcome n (callback req ty d)).actions[i]? = some (Action.postMessage c t x)) :
    ∃ j, j < i ∧ (handle outcome n (callback req ty d)).actions[j]? = some (Action.ack req) := by
  rw [handle_callback] at h ⊢
  refine ⟨1, ?_, by simp⟩
  match i, h with
  | 0, h => simp at h
  | 1, h => simp at h
  | k + 2, _ => omega

/-- Scenario 1 (C9): the PostMessage call is the third action, the Ack call the
second. -/
theorem ack_before_post_witness :
    (handle allSucceed 0 (callback ⟨"E1"⟩ "app_mention"
      (InnerEventData.AppMentionEvent (some ⟨"", "C1", "100.1"⟩)))).actions[2]?
      = some (Action.postMessage "C1" "100.1" "Yes, hello.") ∧
    ∃ j, j < 2 ∧ (handle allSucceed 0 (callback ⟨"E1"⟩ "app_mention"
      (InnerEventData.AppMentionEvent (some ⟨"", "C1", "100.1"⟩)))).actions[j]?
      = some (Action.ack ⟨"E1"⟩) :=
  ⟨by decide, ack_before_post allSucceed 0 ⟨"E1"⟩ "app_mention"
    (InnerEventData.AppMentionEvent (some ⟨"", "C1", "100.1"⟩)) 2 "C1" "100.1" "Yes, hello."
    (by decide)⟩

/-- C10, as stated, fails at user "U9" and channel "C3": two log entries are
recorded, not one. -/
theorem member_joined_one_log_entry_fails :
    ¬ ((acks (handle allSucceed 0 (callback ⟨"E1"⟩ "member_joined_channel"
          (InnerEventData.MemberJoinedChannelEvent (some ⟨"U9", "C3"⟩)))).actions).length = 1 ∧
       (postCalls (handle allSucceed 0 (callback ⟨"E1"⟩ "member_joined_channel"
          (InnerEventData.MemberJoinedChannelEvent (some ⟨"U9", "C3"⟩)))).actions).length = 0 ∧
       (logEntries (handle allSucceed 0 (callback ⟨"E1"⟩ "member_joined_channel"
          (InnerEventData.MemberJoinedChannelEvent (some ⟨"U9", "C3"⟩)))).actions).length
          = 1) := by
  decide

/-- C10, amended: for a callback envelope whose inner event is a member-joined
event, exactly one Ack call and no PostMessage call are made, and exactly two
log entries are recorded: "Event received" before the Ack call and
"user joined to channel" after it. -/
theorem member_joined_two_log_entries (outcome : PostOutcome) (n : Nat) (req : Request)
    (ty : String) (ev : MemberJoinedChannelEvent) :
    (handle outcome n
      (callback req ty (InnerEventData.MemberJoinedChannelEvent (some ev)))).actions
      = [Action.slog Level.Info "Event received"
          [("event", LogValue.eventsAPIEvent ⟨EventsAPIType.CallbackEvent,
            ⟨ty, InnerEventData.MemberJoinedChannelEvent (some ev)⟩⟩)],
         Action.ack req,
         Action.slog Level.Info "user joined to channel"
          [("user", LogValue.str ev.User), ("channel", LogValue.str ev.Channel)]] ∧
    acks (handle outcome n
      (callback req ty (InnerEventData.MemberJoinedChannelEvent (some ev)))).actions = [req] ∧
    postCalls (handle outcome n
      (callback req ty (InnerEventData.MemberJoinedChannelEvent (some ev)))).actions = [] ∧
    (logEntries (handle outcome n
      (callback req ty (InnerEventData.MemberJoinedChannelEvent (some ev)))).actions).length
      = 2 := by
  simp [handle_callback, handleInnerEvent, acks, postCalls, logEntries]

/-! ## Failure handling -/

/-- C7: an Events API transport event whose payload is not an Events API envelope
produces no Ack call and no PostMessage call, records exactly one log entry
and does not panic; in any sequence, the events after it are handled as if it
had not been there: the run differs only by the one "Ignored" log entry. -/
theorem undecodable_event_ignored (outcome : PostOutcome) (n : Nat) (typeName : String)
    (r : Option Request) :
    acks (handle outcome n
      ⟨EventType.EventTypeEventsAPI, EventData.other typeName, r⟩).actions = [] ∧
    postCalls (handle outcome n
      ⟨EventType.EventTypeEventsAPI, EventData.other typeName, r⟩).actions = [] ∧
    (logEntries (handle outcome n
      ⟨EventType.EventTypeEventsAPI, EventData.other typeName, r⟩).actions).length = 1 ∧
    (handle outcome n
      ⟨EventType.EventTypeEventsAPI, EventData.other typeName, r⟩).panicked = false ∧
    ∀ pre rest : List Event,
      if (run outcome n pre).panicked then
        run outcome n (pre ++ ⟨EventType.EventTypeEventsAPI, EventData.other typeName, r⟩ :: rest)
          = run outcome n (pre ++ rest)
      else
        run outcome n (pre ++ ⟨EventType.EventTypeEventsAPI, EventData.other typeName, r⟩ :: rest)
          = ⟨(run outcome n pre).actions ++
              Action.slog Level.Info "Ignored" [("event", LogValue.event
                ⟨EventType.EventTypeEventsAPI, EventData.other typeName, r⟩)] ::
              (run outcome (n + (run outcome n pre).posts) rest).actions,
             (run outcome n pre).posts + (run outcome (n + (run outcome n pre).posts) rest).posts,
             (run outcome (n + (run outcome n pre).posts) rest).panicked⟩ ∧
        run outcome n (pre ++ rest)
          = ⟨(run outcome n pre).actions ++
              (run outcome (n + (run outcome n pre).posts) rest).actions,
             (run outcome n pre).posts + (run outcome (n + (run outcome n pre).posts) rest).posts,
             (run outcome (n + (run outcome n pre).posts) rest).panicked⟩ := by
  refine ⟨by simp [handle, handleEventsAPI, acks], by simp [handle, handleEventsAPI, postCalls],
    by simp [handle, handleEventsAPI, logEntries], by simp [handle, handleEventsAPI], ?_⟩
  intro pre rest
  rw [run_append, run_append outcome pre rest]
  by_cases hp : (run outcome n pre).panicked = true
  · simp [hp]
  · simp only [hp, if_false, Bool.false_eq_true, and_true]
    rw [run_cons]
    simp [handle, handleEventsAPI]

/-- C8, as stated, fails: a callback message event with empty bot ID and type
"message" whose nested message is absent makes the loop dereference a nil
pointer, and so does a decoded Events API event without request handle; in
both sequences the event after it is not handled. -/
theorem run_without_fatal_error_fails :
    ¬ (run allSucceed 0
        [callback ⟨"E1"⟩ "message" (InnerEventData.MessageEvent (some
            ⟨"", "message", "message", "C2", "200.5", none⟩)),
         ⟨EventType.EventTypeConnected, EventData.other "", none⟩]).panicked = false ∧
    ¬ (run allSucceed 0
        [⟨EventType.EventTypeEventsAPI,
          EventData.EventsAPIEvent ⟨EventsAPIType.CallbackEvent,
            ⟨"app_mention", InnerEventData.AppMentionEvent (some ⟨"", "C1", "100.1"⟩)⟩⟩, none⟩,
         ⟨EventType.EventTypeConnected, EventData.other "", none⟩]).panicked = false := by
  decide

/-- C8, amended: when every decoded Events API event of the sequence carries its
request handle, the inner event of every callback envelope is not a nil
pointer, and every callback message event of type "message" without bot ID
carries its nested message, then for every assignment of outcomes to the
PostMessage calls the loop handles the whole sequence without panic, and its
actions are those of the run in which every PostMessage call succeeds with,
directly after each failed call, one "failed posting message" log line carrying
the error of that call: nothing else is added, removed or reordered, so the Ack
calls and the PostMessage calls of all events are the same. -/
theorem run_post_failure_only_logs (outcome : PostOutcome) (n : Nat) (evts : List Event)
    (h : ∀ evt ∈ evts, pointersPresent evt = true) :
    (run outcome n evts).panicked = false ∧
    (run outcome n evts).actions
      = withPostFailureLogs outcome n (run allSucceed n evts).actions ∧
    withoutPostFailureLogs (run outcome n evts).actions = (run allSucceed n evts).actions ∧
    withoutPostFailureLogs (run allSucceed n evts).actions = (run allSucceed n evts).actions ∧
    acks (run outcome n evts).actions = acks (run allSucceed n evts).actions ∧
    postCalls (run outcome n evts).actions = postCalls (run allSucceed n evts).actions := by
  have ho := run_outcome outcome evts n h
  have hw : withoutPostFailureLogs (run outcome n evts).actions
      = (run allSucceed n evts).actions := by
    rw [ho.2.2.2.2]
    exact withoutPostFailureLogs_withPostFailureLogs outcome _ n ho.2.2.2.1
  refine ⟨ho.1, ho.2.2.2.2, hw, ho.2.2.2.1, ?_, ?_⟩
  · rw [← hw, acks_withoutPostFailureLogs]
  · rw [← hw, postCalls_withoutPostFailureLogs]

/-- The events of `scenarioEvents` with every PostMessage call failing (C8): each
failed call is directly followed by its log line, and the events after it are
handled. -/
theorem run_post_failure_only_logs_witness :
    (∀ evt ∈ scenarioEvents, pointersPresent evt = true) ∧
    ((run allFail 0 scenarioEvents).panicked = false ∧
     (run allFail 0 scenarioEvents).actions
       = withPostFailureLogs allFail 0 (run allSucceed 0 scenarioEvents).actions ∧
     withoutPostFailureLogs (run allFail 0 scenarioEvents).actions
       = (run allSucceed 0 scenarioEvents).actions ∧
     withoutPostFailureLogs (run allSucceed 0 scenarioEvents).actions
       = (run allSucceed 0 scenarioEvents).actions ∧
     acks (run allFail 0 scenarioEvents).actions
       = acks (run allSucceed 0 scenarioEvents).actions ∧
     postCalls (run allFail 0 scenarioEvents).actions
       = postCalls (run allSucceed 0 scenarioEvents).actions) ∧
    (run allFail 0 scenarioEvents).actions
      = [Action.slog Level.Info "Event received"
           [("event", LogValue.eventsAPIEvent ⟨EventsAPIType.CallbackEvent, ⟨"app_mention",
             InnerEventData.AppMentionEvent (some ⟨"", "C1", "100.1"⟩)⟩⟩)],
         Action.ack ⟨"E1"⟩,
         Action.postMessage "C1" "100.1" "Yes, hello.",
         Action.slog Level.Error "failed posting message"
           [("error", LogValue.error "channel_not_found")],
         Action.slog Level.Info "Ignored" [("event", LogValue.event
           ⟨EventType.EventTypeEventsAPI, EventData.other "", none⟩)],
         Action.slog Level.Info "Event received"
           [("event", LogValue.eventsAPIEvent ⟨EventsAPIType.CallbackEvent, ⟨"message",
             InnerEventData.MessageEvent (some
               ⟨"", "message", "message", "C2", "200.5", some ⟨"hi there"⟩⟩)⟩⟩)],
         Action.ack ⟨"E2"⟩,
         Action.postMessage "C2" "200.5" "message: hi there",
         Action.slog Level.Error "failed posting message"
           [("error", LogValue.error "channel_not_found")]] :=
  ⟨by decide, run_post_failure_only_logs allFail 0 scenarioEvents (by decide), by decide⟩

/-- The run of `scenarioEvents`, with every PostMessage call failing and with
every call succeeding. -/
theorem run_scenarioEvents_allFail :
    (run allFail 0 scenarioEvents).posts = 2 ∧
    acks (run allFail 0 scenarioEvents).actions = [⟨"E1"⟩, ⟨"E2"⟩] ∧
    postCalls (run allFail 0 scenarioEvents).actions
      = [("C1", "100.1", "Yes, hello."), ("C2", "200.5", "message: hi there")] ∧
    (logEntries (run allFail 0 scenarioEvents).actions).length = 5 ∧
    (logEntries (run allSucceed 0 scenarioEvents).actions).length = 3 := by
  decide

/-- A callback message event of type "message" without bot ID and without nested
message is acknowledged, and then makes the loop dereference a nil pointer. -/
theorem handle_message_without_nested_message :
    handle allSucceed 0 (callback ⟨"E1"⟩ "message"
        (InnerEventData.MessageEvent (some ⟨"", "message", "message", "C2", "200.5", none⟩)))
      = ⟨[Action.slog Level.Info "Event received"
            [("event", LogValue.eventsAPIEvent ⟨EventsAPIType.CallbackEvent, ⟨"message",
              InnerEventData.MessageEvent (some
                ⟨"", "message", "message", "C2", "200.5", none⟩)⟩⟩)],
          Action.ack ⟨"E1"⟩], 0, true⟩ := by
  decide

/-- A callback envelope whose inner event is a nil pointer of a type the type
switch has a case for is acknowledged, and then makes the loop dereference the
nil pointer. -/
theorem handle_nil_inner_event (outcome : PostOutcome) (n : Nat) (req : Request) (ty : String) :
    (handle outcome n (callback req ty (InnerEventData.AppMentionEvent none))).panicked = true ∧
    (handle outcome n (callback req ty (InnerEventData.MessageEvent none))).panicked = true ∧
    (handle outcome n
      (callback req ty (InnerEventData.MemberJoinedChannelEvent none))).panicked = true ∧
    acks (handle outcome n (callback req ty (InnerEventData.AppMentionEvent none))).actions
      = [req] := by
  simp [handle_callback, handleInnerEvent, acks]

end SlackBot
